import Mathlib

/-!
Shallow embedding of the Snap-O CLI launcher stub
(`snapo-app-mac/SnapOCLI/main.c`).

The launcher canonicalizes its own path (`realpath(argv[0], ...)`),
strips the last two path components to find the installation root,
joins the root with a compiled-in helper suffix (`snprintf` into a
`PATH_MAX` buffer), builds a forwarded argument vector, and replaces
its process image with the helper (`execv`).

Modelling conventions:
* C strings are Lean `String`s (assumed NUL-free); the byte-level
  truncation `*last_slash = 0` after `strrchr(s, slash)` becomes
  `chopAtLastSlash` on the character list.
* `realpath` and `calloc` are OS/libc calls: the environment `Env`
  supplies their outcomes (`realpath` as a function to `Option String`,
  allocation success as a `Bool`).  `execv` succeeds exactly when an
  executable helper exists at the given path; `Env.helperExists`
  supplies that fact and `Env.execErrnoMsg` the `strerror` text that
  `perror` would append on failure.
* `snprintf(out, n, "%s/%s", a, b)` writes the full string when its
  length is `< n` and reports the would-be length, so the C failure
  test `written < 0 || written >= out_size` becomes
  `¬ out.length < out_size` (the `written < 0` encoding-failure case
  has no counterpart on pure character lists).
* The three distinct `return -1` sites of `resolve_helper_executable`
  are tagged with `ResolveError` constructors matching the stages the
  specification names; the C caller only observes failure vs success.
* stderr diagnostics are modelled as the text of the single line
  written, without the trailing newline that `fprintf`/`perror` add.
-/

/-- Maximum path buffer size on the target platform (macOS `PATH_MAX`,
1024 bytes); `helper_executable` and `resolved_executable` are
`char[PATH_MAX]` buffers in the C source. -/
def PATH_MAX : Nat := 1024

/-- The compiled-in constant `kHelperRelativeExecutable` from `main.c`:
the helper location relative to the installation root. -/
def kHelperRelativeExecutable : String :=
  "Helpers/Snap-O Network Inspector.app/Contents/MacOS/Snap-O Network Inspector"

/-- Mirrors `last_slash = strrchr(s, slash); *last_slash = 0`: returns
the part of `s` strictly before its last `'/'`, or `none` when `s`
contains no `'/'` (the `strrchr = NULL` failure case). -/
def chopAtLastSlash : List Char → Option (List Char)
  | [] => none
  | c :: rest =>
    match chopAtLastSlash rest with
    | some t => some (c :: t)
    | none => if c = '/' then some [] else none

/-- Failure stages of `resolve_helper_executable`, tagging the three
distinct `return -1` sites in the C function (the caller collapses
them to a single nonzero return). -/
inductive ResolveError where
  | resolutionError
  | layoutError
  | formattingError
  deriving DecidableEq

/-- Embedding of `resolve_helper_executable(argv0, out, out_size)`.
The `realpath(argv0, resolved_executable)` result is passed in as
`realpathResult` (`none` when `realpath` returned `NULL`).  The two
`strrchr`-and-truncate steps become `chopAtLastSlash`; the final
`snprintf(out, out_size, "%s/%s", resolved, kHelperRelativeExecutable)`
succeeds exactly when the joined string fits the buffer. -/
def resolve_helper_executable (realpathResult : Option String) (out_size : Nat) :
    Except ResolveError String :=
  match realpathResult with
  | none => Except.error ResolveError.resolutionError
  | some resolved =>
    match chopAtLastSlash resolved.data with
    | none => Except.error ResolveError.layoutError
    | some dir =>
      match chopAtLastSlash dir with
      | none => Except.error ResolveError.layoutError
      | some rootd =>
        let out : String := String.mk rootd ++ "/" ++ kHelperRelativeExecutable
        if out.length < out_size then Except.ok out
        else Except.error ResolveError.formattingError

/-- Outcomes the OS supplies to one launcher run: the `realpath`
function, whether `calloc` succeeds, whether an executable helper
exists at a given path (deciding `execv` success), and the `strerror`
text `perror` appends if `execv` fails. -/
structure Env where
  realpath : String → Option String
  allocOk : Bool
  helperExists : String → Bool
  execErrnoMsg : String

/-- The diagnostic line `main` writes when `resolve_helper_executable`
fails. -/
def resolveFailMsg : String := "snapo: failed to resolve helper executable path"

/-- The diagnostic line `main` writes when `calloc` fails. -/
def allocFailMsg : String := "snapo: failed to allocate argument buffer"

/-- The diagnostic line `perror("snapo: failed to launch helper")`
writes when `execv` fails: the fixed text, a colon-space, and the
`strerror(errno)` description. -/
def launchFailMsg (errno : String) : String :=
  "snapo: failed to launch helper: " ++ errno

/-- The `child_argv` array built by `main`: slot 0 is the helper path,
slots `1..argc-1` copy `argv[1..argc-1]` in order, and slot `argc` is
the `NULL` terminator (modelled as `none`).  `args` is `argv[1..]`. -/
def build_child_argv (helper : String) (args : List String) : List (Option String) :=
  some helper :: args.map Option.some ++ [none]

/-- Observable end state of one launcher run: either the process image
was replaced by `prog` with argument vector `args` (`execv`
succeeded), or the process exited with `exitCode` after writing the
single diagnostic line `diag` to stderr; `execAttempted` records
whether `execv` was ever invoked on the failure path. -/
inductive Outcome where
  | replaced (prog : String) (args : List (Option String))
  | failed (exitCode : Nat) (diag : String) (execAttempted : Bool)
  deriving DecidableEq

/-- Embedding of `main(argc, argv)` for `argv = argv0 :: args`
(`argc = 1 + args.length`): resolve the helper path into the
`PATH_MAX` buffer, allocate and fill `child_argv`, then `execv`. -/
def mainRun (env : Env) (argv0 : String) (args : List String) : Outcome :=
  match resolve_helper_executable (env.realpath argv0) PATH_MAX with
  | Except.error _ => Outcome.failed 1 resolveFailMsg false
  | Except.ok helper_executable =>
    if env.allocOk then
      if env.helperExists helper_executable then
        Outcome.replaced helper_executable (build_child_argv helper_executable args)
      else
        Outcome.failed 1 (launchFailMsg env.execErrnoMsg) true
    else
      Outcome.failed 1 allocFailMsg false

/-- The resolution stage exactly as `main` invokes it: resolve the
`realpath` of `argv0` into a `PATH_MAX`-sized buffer. -/
def resolveStage (env : Env) (argv0 : String) : Except ResolveError String :=
  resolve_helper_executable (env.realpath argv0) PATH_MAX

/-! Basic facts about the embedding. -/

theorem data_append (s t : String) : (s ++ t).data = s.data ++ t.data := by
  cases s; cases t; rfl

theorem mk_data_eq (s : String) : String.mk s.data = s := by
  cases s; rfl

theorem chop_eq_none (y : List Char) (hy : '/' ∉ y) : chopAtLastSlash y = none := by
  induction y with
  | nil => rfl
  | cons c rest ih =>
    have hc : ¬ c = '/' := by
      intro he; exact hy (he ▸ List.mem_cons_self c rest)
    have hr : '/' ∉ rest := fun hm => hy (List.mem_cons_of_mem c hm)
    simp [chopAtLastSlash, ih hr, hc]

theorem not_mem_of_chop_eq_none (y : List Char) (h : chopAtLastSlash y = none) :
    '/' ∉ y := by
  induction y with
  | nil => simp
  | cons c rest ih =>
    cases hr : chopAtLastSlash rest with
    | some u => simp [chopAtLastSlash, hr] at h
    | none =>
      have hc : ¬ c = '/' := by
        intro he; simp [chopAtLastSlash, hr, he] at h
      have := ih hr
      simp [List.mem_cons]
      exact ⟨fun he => hc he.symm, this⟩

theorem chop_append (x y : List Char) (hy : '/' ∉ y) :
    chopAtLastSlash (x ++ '/' :: y) = some x := by
  induction x with
  | nil => simp [chopAtLastSlash, chop_eq_none y hy]
  | cons a x ih => simp [chopAtLastSlash, ih]

theorem chop_count (s t : List Char) (h : chopAtLastSlash s = some t) :
    t.count '/' + 1 = s.count '/' := by
  induction s generalizing t with
  | nil => simp [chopAtLastSlash] at h
  | cons c rest ih =>
    cases hr : chopAtLastSlash rest with
    | some u =>
      have ht : t = c :: u := by
        simp [chopAtLastSlash, hr] at h
        exact h.symm
      subst ht
      have hiu := ih u hr
      rw [List.count_cons, List.count_cons]
      omega
    | none =>
      by_cases hc : c = '/'
      · subst hc
        have ht : t = [] := by
          simp [chopAtLastSlash, hr] at h
          exact h
        subst ht
        have h0 : rest.count '/' = 0 :=
          List.count_eq_zero.mpr (not_mem_of_chop_eq_none rest hr)
        simp [List.count_cons, h0]
      · simp [chopAtLastSlash, hr, hc] at h

theorem launchFailMsg_ne (m : String) :
    launchFailMsg m ≠ resolveFailMsg ∧ launchFailMsg m ≠ allocFailMsg := by
  constructor
  · intro h
    have h2 := congrArg (fun s => s.data.count ':') h
    simp only [launchFailMsg, data_append, List.count_append] at h2
    have e1 : ("snapo: failed to launch helper: " : String).data.count ':' = 2 := by decide
    have e2 : resolveFailMsg.data.count ':' = 1 := by decide
    rw [e1, e2] at h2
    omega
  · intro h
    have h2 := congrArg (fun s => s.data.count ':') h
    simp only [launchFailMsg, data_append, List.count_append] at h2
    have e1 : ("snapo: failed to launch helper: " : String).data.count ':' = 2 := by decide
    have e2 : allocFailMsg.data.count ':' = 1 := by decide
    rw [e1, e2] at h2
    omega

theorem resolve_of_chops (s : String) (dir rootd : List Char) (sz : Nat)
    (h1 : chopAtLastSlash s.data = some dir)
    (h2 : chopAtLastSlash dir = some rootd) :
    resolve_helper_executable (some s) sz =
      if (String.mk rootd ++ "/" ++ kHelperRelativeExecutable).length < sz
      then Except.ok (String.mk rootd ++ "/" ++ kHelperRelativeExecutable)
      else Except.error ResolveError.formattingError := by
  unfold resolve_helper_executable
  simp only [h1, h2]

/-! Claim theorems. -/

/-- Claim C1, counterexample: with the launcher's canonicalized path at
`root/A/B/launcher` (here `/r/a/b/launcher`, so `root = /r`, `A = a`,
`B = b`), `resolve_helper_executable` strips exactly two components and
returns `/r/a/<suffix>`, not the `root/Helpers/name` path
`/r/<suffix>` the claim demands. -/
theorem C1_counterexample :
    resolve_helper_executable (some "/r/a/b/launcher") PATH_MAX
        = Except.ok ("/r/a/" ++ kHelperRelativeExecutable)
      ∧ ("/r/a/" ++ kHelperRelativeExecutable) ≠ ("/r/" ++ kHelperRelativeExecutable) :=
  ⟨rfl, by decide⟩

/-- Claim C1 (amended): for every installation layout in which the
launcher's canonicalized path is `root/A/launcher` (the launcher two
path components below the root, as in the code and the spec's
end-to-end scenario), and in which the joined helper path fits the
`PATH_MAX` buffer, resolution succeeds and returns exactly `root`
joined with the compiled-in helper suffix.  The result is a function
of the canonicalized path alone, hence independent of how many
symlinks were traversed to reach the launcher. -/
theorem C1_amended (root a name : String)
    (ha : '/' ∉ a.data) (hn : '/' ∉ name.data)
    (hfit : root.length + 1 + kHelperRelativeExecutable.length < PATH_MAX) :
    resolve_helper_executable (some (root ++ "/" ++ a ++ "/" ++ name)) PATH_MAX
      = Except.ok (root ++ "/" ++ kHelperRelativeExecutable) := by
  have hs : ("/" : String).data = ['/'] := rfl
  have hdata : (root ++ "/" ++ a ++ "/" ++ name).data
      = (root.data ++ '/' :: a.data) ++ '/' :: name.data := by
    simp [data_append, hs]
  have h1 : chopAtLastSlash (root ++ "/" ++ a ++ "/" ++ name).data
      = some (root.data ++ '/' :: a.data) := by
    rw [hdata]; exact chop_append _ _ hn
  have h2 : chopAtLastSlash (root.data ++ '/' :: a.data) = some root.data :=
    chop_append _ _ ha
  have hlen : (String.mk root.data ++ "/" ++ kHelperRelativeExecutable).length < PATH_MAX := by
    rw [mk_data_eq, String.length_append, String.length_append]
    have : ("/" : String).length = 1 := rfl
    omega
  rw [resolve_of_chops _ _ _ _ h1 h2, if_pos hlen, mk_data_eq]

/-- Claim C1 witness: the spec's own end-to-end layout,
`/opt/app/bin/launcher`, resolves to `/opt/app/<suffix>`. -/
theorem C1_amended_witness :
    ('/' ∉ ("bin" : String).data) ∧ ('/' ∉ ("launcher" : String).data)
      ∧ ("/opt/app" : String).length + 1 + kHelperRelativeExecutable.length < PATH_MAX
      ∧ resolve_helper_executable
            (some (("/opt/app" : String) ++ "/" ++ "bin" ++ "/" ++ "launcher")) PATH_MAX
          = Except.ok (("/opt/app" : String) ++ "/" ++ kHelperRelativeExecutable) :=
  ⟨by decide, by decide, by decide,
    C1_amended "/opt/app" "bin" "launcher" (by decide) (by decide) (by decide)⟩

/-- Claim C2: for every original argument list `argv0 :: args` of
length `n ≥ 1`, the forwarded vector `build_child_argv` has `n + 1`
slots, of which the first `n` are the forwarded arguments — slot 0 the
helper path and slots `1..n-1` exactly `args` in order — and the last
is the terminating `NULL` sentinel. -/
theorem C2_forwarding (helper argv0 : String) (args : List String) :
    (build_child_argv helper args).length = (argv0 :: args).length + 1
      ∧ (build_child_argv helper args).head? = some (some helper)
      ∧ (build_child_argv helper args).dropLast = some helper :: args.map Option.some
      ∧ (build_child_argv helper args).dropLast.length = (argv0 :: args).length
      ∧ (build_child_argv helper args).dropLast.tail = args.map Option.some
      ∧ (build_child_argv helper args).getLast? = some none := by
  have hdl : (build_child_argv helper args).dropLast
      = some helper :: args.map Option.some := by
    show ((some helper :: args.map Option.some) ++ [none]).dropLast = _
    rw [List.dropLast_concat]
  refine ⟨?_, rfl, hdl, ?_, ?_, ?_⟩
  · simp [build_child_argv]
  · rw [hdl]; simp
  · rw [hdl]; rfl
  · show ((some helper :: args.map Option.some) ++ [none]).getLast? = _
    rw [List.getLast?_concat]

/-- Claim C3: on every internal failure — resolution, allocation, or
launch — the launcher exits with status exactly 1 and writes one of
the three single-line diagnostics (newline-free, given that the
`strerror` text is); the resolution-stage diagnostic is distinct from
the launch-stage diagnostic (and so is the allocation one). -/
theorem C3_failure_diagnostics (env : Env) (argv0 : String) (args : List String)
    (code : Nat) (diag : String) (att : Bool)
    (hnl : '\n' ∉ env.execErrnoMsg.data)
    (h : mainRun env argv0 args = Outcome.failed code diag att) :
    code = 1 ∧ '\n' ∉ diag.data
      ∧ (diag = resolveFailMsg ∨ diag = allocFailMsg
          ∨ diag = launchFailMsg env.execErrnoMsg)
      ∧ launchFailMsg env.execErrnoMsg ≠ resolveFailMsg
      ∧ launchFailMsg env.execErrnoMsg ≠ allocFailMsg := by
  have hln : '\n' ∉ (launchFailMsg env.execErrnoMsg).data := by
    rw [launchFailMsg, data_append]
    intro hm
    rcases List.mem_append.mp hm with hm1 | hm2
    · exact absurd hm1 (by decide)
    · exact hnl hm2
  unfold mainRun at h
  cases hres : resolve_helper_executable (env.realpath argv0) PATH_MAX with
  | error e =>
    rw [hres] at h
    cases h
    exact ⟨rfl, by decide, Or.inl rfl, (launchFailMsg_ne _).1, (launchFailMsg_ne _).2⟩
  | ok helper =>
    rw [hres] at h
    cases halloc : env.allocOk with
    | false =>
      rw [halloc] at h
      cases h
      exact ⟨rfl, by decide, Or.inr (Or.inl rfl),
        (launchFailMsg_ne _).1, (launchFailMsg_ne _).2⟩
    | true =>
      rw [halloc] at h
      simp only [if_true] at h
      cases hex : env.helperExists helper with
      | true => rw [hex] at h; simp at h
      | false =>
        rw [hex] at h
        simp only [Bool.false_eq_true, if_false] at h
        cases h
        exact ⟨rfl, hln, Or.inr (Or.inr rfl),
          (launchFailMsg_ne _).1, (launchFailMsg_ne _).2⟩

/-- Claim C3 witness: a run whose `realpath` fails exits 1 with the
resolution diagnostic. -/
theorem C3_witness :
    '\n' ∉ (Env.mk (fun _ => none) true (fun _ => true) "").execErrnoMsg.data
      ∧ ((1 : Nat) = 1 ∧ '\n' ∉ resolveFailMsg.data
          ∧ (resolveFailMsg = resolveFailMsg ∨ resolveFailMsg = allocFailMsg
              ∨ resolveFailMsg
                  = launchFailMsg (Env.mk (fun _ => none) true (fun _ => true) "").execErrnoMsg)
          ∧ launchFailMsg (Env.mk (fun _ => none) true (fun _ => true) "").execErrnoMsg
              ≠ resolveFailMsg
          ∧ launchFailMsg (Env.mk (fun _ => none) true (fun _ => true) "").execErrnoMsg
              ≠ allocFailMsg) :=
  ⟨by decide,
    C3_failure_diagnostics (Env.mk (fun _ => none) true (fun _ => true) "")
      "launcher" [] 1 resolveFailMsg false (by decide) rfl⟩

/-- Claim C4: whenever the canonicalized launcher path contains fewer
than two slashes — so one of the two strip operations finds no path
separator to remove — resolution fails with `LayoutError`, for any
buffer size. -/
theorem C4_layout_error (s : String) (sz : Nat) (h : s.data.count '/' < 2) :
    resolve_helper_executable (some s) sz = Except.error ResolveError.layoutError := by
  cases h1 : chopAtLastSlash s.data with
  | none => simp [resolve_helper_executable, h1]
  | some dir =>
    have hc := chop_count _ _ h1
    have h0 : dir.count '/' = 0 := by omega
    have h2 : chopAtLastSlash dir = none :=
      chop_eq_none dir (List.count_eq_zero.mp h0)
    simp [resolve_helper_executable, h1, h2]

/-- Claim C4 witness: a launcher that canonicalizes to `/launcher` at
the filesystem root fails with `LayoutError`. -/
theorem C4_witness :
    ("/launcher" : String).data.count '/' < 2
      ∧ resolve_helper_executable (some "/launcher") PATH_MAX
          = Except.error ResolveError.layoutError :=
  ⟨by decide, C4_layout_error "/launcher" PATH_MAX (by decide)⟩

/-- Claim C5: whenever `realpath` on the launcher's own path fails,
resolution fails with `ResolutionError` and the run exits with status
1 carrying the resolution diagnostic, with `execv` never invoked
(`execAttempted = false`). -/
theorem C5_no_launch_on_realpath_failure (env : Env) (argv0 : String)
    (args : List String) (h : env.realpath argv0 = none) :
    resolveStage env argv0 = Except.error ResolveError.resolutionError
      ∧ mainRun env argv0 args = Outcome.failed 1 resolveFailMsg false := by
  constructor
  · unfold resolveStage
    rw [h]
    rfl
  · unfold mainRun
    rw [h]
    rfl

/-- Claim C5 witness: a concrete run with failing `realpath`. -/
theorem C5_witness :
    (Env.mk (fun _ => none) true (fun _ => true) "").realpath "launcher" = none
      ∧ resolveStage (Env.mk (fun _ => none) true (fun _ => true) "") "launcher"
          = Except.error ResolveError.resolutionError
      ∧ mainRun (Env.mk (fun _ => none) true (fun _ => true) "") "launcher" []
          = Outcome.failed 1 resolveFailMsg false :=
  ⟨rfl,
    (C5_no_launch_on_realpath_failure _ "launcher" [] rfl).1,
    (C5_no_launch_on_realpath_failure _ "launcher" [] rfl).2⟩

/-- Claim C6: if resolution and allocation succeed but no helper
exists at the computed path, `execv` fails and the run exits 1 with
the launch diagnostic (`execAttempted = true`), which differs from the
only resolution-stage diagnostic (and from the allocation one), for
every `strerror` text. -/
theorem C6_launch_error (env : Env) (argv0 helper : String) (args : List String)
    (hres : resolveStage env argv0 = Except.ok helper)
    (halloc : env.allocOk = true)
    (hex : env.helperExists helper = false) :
    mainRun env argv0 args = Outcome.failed 1 (launchFailMsg env.execErrnoMsg) true
      ∧ launchFailMsg env.execErrnoMsg ≠ resolveFailMsg
      ∧ launchFailMsg env.execErrnoMsg ≠ allocFailMsg := by
  refine ⟨?_, (launchFailMsg_ne _).1, (launchFailMsg_ne _).2⟩
  unfold resolveStage at hres
  unfold mainRun
  rw [hres, halloc]
  simp [hex]

/-- Claim C7: once `realpath` has succeeded and both strip operations
found a separator (yielding installation root `rootd`), resolution
fails with `FormattingError` exactly when the joined helper path does
not fit the output buffer (`snprintf` would need at least `out_size`
bytes plus the terminator); otherwise the join succeeds and that
joined path is returned.  In the embedding `snprintf` itself cannot
fail, so a negative return — the only other C failure mode at this
site — has no counterpart. -/
theorem C7_formatting_error_iff (s : String) (sz : Nat) (dir rootd : List Char)
    (h1 : chopAtLastSlash s.data = some dir)
    (h2 : chopAtLastSlash dir = some rootd) :
    (resolve_helper_executable (some s) sz = Except.error ResolveError.formattingError
        ↔ sz ≤ (String.mk rootd ++ "/" ++ kHelperRelativeExecutable).length)
      ∧ ((String.mk rootd ++ "/" ++ kHelperRelativeExecutable).length < sz
          → resolve_helper_executable (some s) sz
              = Except.ok (String.mk rootd ++ "/" ++ kHelperRelativeExecutable)) := by
  rw [resolve_of_chops s dir rootd sz h1 h2]
  by_cases hlt : (String.mk rootd ++ "/" ++ kHelperRelativeExecutable).length < sz
  · rw [if_pos hlt]
    constructor
    · constructor
      · intro hc; exact absurd hc (by simp)
      · intro hle; omega
    · intro _; rfl
  · rw [if_neg hlt]
    constructor
    · constructor
      · intro _; omega
      · intro _; rfl
    · intro hc; exact absurd hc hlt

/-- Claim C7 witness: with a 10-byte buffer the joined path `/r/` plus
the helper suffix (80 bytes) does not fit, so resolution of
`/r/a/launcher` reports `FormattingError`; it fits in `PATH_MAX`. -/
theorem C7_witness :
    chopAtLastSlash ("/r/a/launcher" : String).data = some ("/r/a" : String).data
      ∧ chopAtLastSlash ("/r/a" : String).data = some ("/r" : String).data
      ∧ ((resolve_helper_executable (some "/r/a/launcher") 10
              = Except.error ResolveError.formattingError
            ↔ 10 ≤ (String.mk ("/r" : String).data ++ "/" ++ kHelperRelativeExecutable).length)
          ∧ ((String.mk ("/r" : String).data ++ "/" ++ kHelperRelativeExecutable).length < 10
              → resolve_helper_executable (some "/r/a/launcher") 10
                  = Except.ok (String.mk ("/r" : String).data ++ "/"
                      ++ kHelperRelativeExecutable))) :=
  ⟨by decide, by decide,
    C7_formatting_error_iff "/r/a/launcher" 10 ("/r/a" : String).data
      ("/r" : String).data (by decide) (by decide)⟩

/-- Claim C8: the resolution stage reads nothing but the `realpath`
canonicalization result — in particular it performs no filesystem
check on the helper itself.  With the same `realpath`, any allocation
outcome, helper-existence predicate, and `strerror` text leave the
resolved helper path unchanged; whether a helper actually exists there
only surfaces in the subsequent `execv` attempt, whose two outcomes
are exhibited. -/
theorem C8_no_existence_check (rp : String → Option String)
    (ex1 ex2 : String → Bool) (a1 a2 : Bool) (m1 m2 : String)
    (argv0 helper : String) (args : List String)
    (h : resolveStage (Env.mk rp a1 ex1 m1) argv0 = Except.ok helper) :
    resolveStage (Env.mk rp a2 ex2 m2) argv0 = Except.ok helper
      ∧ mainRun (Env.mk rp true ex2 m2) argv0 args
          = (if ex2 helper then Outcome.replaced helper (build_child_argv helper args)
             else Outcome.failed 1 (launchFailMsg m2) true) := by
  constructor
  · exact h
  · unfold resolveStage at h
    unfold mainRun
    rw [show (Env.mk rp true ex2 m2).realpath argv0 = rp argv0 from rfl, h]
    rfl

/-- Claim C8 witness: same `realpath`, helper existing vs missing —
identical resolution result, divergent launch outcomes. -/
theorem C8_witness :
    resolveStage (Env.mk (fun _ => some "/r/a/launcher") true (fun _ => false) "err")
        "launcher"
        = Except.ok ("/r/" ++ kHelperRelativeExecutable)
      ∧ mainRun (Env.mk (fun _ => some "/r/a/launcher") true (fun _ => false) "err")
          "launcher" []
          = (if (fun (_ : String) => false) ("/r/" ++ kHelperRelativeExecutable) then
              Outcome.replaced ("/r/" ++ kHelperRelativeExecutable)
                (build_child_argv ("/r/" ++ kHelperRelativeExecutable) [])
             else Outcome.failed 1 (launchFailMsg "err") true) :=
  C8_no_existence_check (fun _ => some "/r/a/launcher") (fun _ => true) (fun _ => false)
    true true "err" "err" "launcher" ("/r/" ++ kHelperRelativeExecutable) [] rfl

/-- Claim C9: if resolution succeeds but the `calloc` for the
forwarded argument vector fails, the run exits 1 with the allocation
diagnostic and `execv` is never invoked (`execAttempted = false`),
whatever the argument list. -/
theorem C9_alloc_failure (env : Env) (argv0 helper : String) (args : List String)
    (hres : resolveStage env argv0 = Except.ok helper)
    (halloc : env.allocOk = false) :
    mainRun env argv0 args = Outcome.failed 1 allocFailMsg false := by
  unfold resolveStage at hres
  unfold mainRun
  rw [hres, halloc]
  rfl

/-- Claim C9 witness: a concrete run with failing allocation. -/
theorem C9_witness :
    resolveStage (Env.mk (fun _ => some "/r/a/launcher") false (fun _ => true) "")
        "launcher"
        = Except.ok ("/r/" ++ kHelperRelativeExecutable)
      ∧ (Env.mk (fun _ => some "/r/a/launcher") false (fun _ => true) "").allocOk = false
      ∧ mainRun (Env.mk (fun _ => some "/r/a/launcher") false (fun _ => true) "")
          "launcher" ["--flag", "value"]
          = Outcome.failed 1 allocFailMsg false :=
  ⟨rfl, rfl,
    C9_alloc_failure (Env.mk (fun _ => some "/r/a/launcher") false (fun _ => true) "")
      "launcher" ("/r/" ++ kHelperRelativeExecutable) ["--flag", "value"] rfl rfl⟩

/-- Claim C10: every successful resolution returns a path strictly
shorter than the `PATH_MAX` buffer whose character data is exactly the
stripped installation root, a separating slash, and the compiled-in
helper suffix — so it begins with the root followed by a slash and
ends with `kHelperRelativeExecutable`. -/
theorem C10_success_shape (s out : String)
    (h : resolve_helper_executable (some s) PATH_MAX = Except.ok out) :
    out.length < PATH_MAX
      ∧ ∃ dir rootd, chopAtLastSlash s.data = some dir
          ∧ chopAtLastSlash dir = some rootd
          ∧ out.data = rootd ++ '/' :: kHelperRelativeExecutable.data := by
  cases h1 : chopAtLastSlash s.data with
  | none => simp [resolve_helper_executable, h1] at h
  | some dir =>
    cases h2 : chopAtLastSlash dir with
    | none => simp [resolve_helper_executable, h1, h2] at h
    | some rootd =>
      rw [resolve_of_chops s dir rootd PATH_MAX h1 h2] at h
      by_cases hlt : (String.mk rootd ++ "/" ++ kHelperRelativeExecutable).length < PATH_MAX
      · rw [if_pos hlt] at h
        cases h
        refine ⟨hlt, dir, rootd, rfl, h2, ?_⟩
        rw [data_append, data_append, List.append_assoc]
        rfl
      · rw [if_neg hlt] at h
        cases h

/-- Claim C10 witness: the resolved path for `/r/a/launcher` has the
stated shape. -/
theorem C10_witness :
    ("/r/" ++ kHelperRelativeExecutable).length < PATH_MAX
      ∧ ∃ dir rootd, chopAtLastSlash ("/r/a/launcher" : String).data = some dir
          ∧ chopAtLastSlash dir = some rootd
          ∧ ("/r/" ++ kHelperRelativeExecutable).data
              = rootd ++ '/' :: kHelperRelativeExecutable.data :=
  C10_success_shape "/r/a/launcher" ("/r/" ++ kHelperRelativeExecutable) rfl

/-- Claim C6 witness: a run whose helper is missing exits 1 with the
launch diagnostic carrying the OS error text, and that diagnostic
differs from the resolution and allocation diagnostics. -/
theorem C6_witness :
    mainRun
        (Env.mk (fun _ => some "/r/a/launcher") true (fun _ => false)
          "No such file or directory") "launcher" []
        = Outcome.failed 1 (launchFailMsg "No such file or directory") true
      ∧ launchFailMsg "No such file or directory" ≠ resolveFailMsg
      ∧ launchFailMsg "No such file or directory" ≠ allocFailMsg :=
  C6_launch_error
    (Env.mk (fun _ => some "/r/a/launcher") true (fun _ => false)
      "No such file or directory")
    "launcher" ("/r/" ++ kHelperRelativeExecutable) [] rfl rfl rfl
